import Mathlib

/-!
A shallow embedding of the cube model in `cube.py`: the `Tile` enumeration,
the `Side` 3×3 grid with its edge accessors and the two in-place rotations
`r_left` / `r_right`, and the `Cube` with its fixed neighbour wiring, logical
layout, twelve quarter-turn moves, two whole-cube reorientations and the
`mix` scramble.  Mutable state is threaded explicitly: the grid of a `Side` is a
triple of rows, the six grids form a `Sides` record, and every mutating
method of the source becomes a state-passing function that performs the same
reads and writes in the same order.
-/

/-- The `Tile` enum of `cube.py` (the values are ANSI colour codes; only the
identity of the constructor matters for the model). -/
inductive Tile where
  | RED
  | GREEN
  | BLUE
  | YELLOW
  | WHITE
  | ORANGE
  | UNSET
deriving DecidableEq, Repr

/-- A 3-element strip of tiles, as passed to and from the edge accessors
(a Python `list` of length 3). -/
abbrev Strip : Type := Tile × Tile × Tile

/-- `insert[::-1]` on a 3-element list. -/
def rev3 (s : Strip) : Strip := (s.2.2, s.2.1, s.1)

/-- `Side.tiles`: three rows of three tiles, row 0 on top, each row read
left to right. -/
abbrev Grid : Type := Strip × Strip × Strip

/-- `self.tiles[r][c]` — the naive row/column scan of the grid of a side. -/
def cellAt (g : Grid) (r c : Fin 3) : Tile :=
  match r, c with
  | ⟨0, _⟩, ⟨0, _⟩ => g.1.1
  | ⟨0, _⟩, ⟨1, _⟩ => g.1.2.1
  | ⟨0, _⟩, ⟨2, _⟩ => g.1.2.2
  | ⟨1, _⟩, ⟨0, _⟩ => g.2.1.1
  | ⟨1, _⟩, ⟨1, _⟩ => g.2.1.2.1
  | ⟨1, _⟩, ⟨2, _⟩ => g.2.1.2.2
  | ⟨2, _⟩, ⟨0, _⟩ => g.2.2.1
  | ⟨2, _⟩, ⟨1, _⟩ => g.2.2.2.1
  | ⟨2, _⟩, ⟨2, _⟩ => g.2.2.2.2
  | ⟨r + 3, hr⟩, _ => absurd hr (by omega)
  | _, ⟨c + 3, hc⟩ => absurd hc (by omega)

/-- `Side.get_top`: `list(self.tiles[0])`. -/
def get_top (g : Grid) : Strip := g.1

/-- `Side.get_bottom`: `list(self.tiles[2][::-1])`. -/
def get_bottom (g : Grid) : Strip := rev3 g.2.2

/-- `Side.get_left`: `[i[0] for i in self.tiles[::-1]]`. -/
def get_left (g : Grid) : Strip := (g.2.2.1, g.2.1.1, g.1.1)

/-- `Side.get_right`: `[i[2] for i in self.tiles]`. -/
def get_right (g : Grid) : Strip := (g.1.2.2, g.2.1.2.2, g.2.2.2.2)

/-- `Side._set_top`: `self.tiles[0] = list(insert)`. -/
def set_top (g : Grid) (s : Strip) : Grid := (s, g.2.1, g.2.2)

/-- `Side._set_bottom`: `self.tiles[2] = list(insert[::-1])`. -/
def set_bottom (g : Grid) (s : Strip) : Grid := (g.1, g.2.1, rev3 s)

/-- `Side._set_left`: `tiles[2][0] = insert[0]; tiles[1][0] = insert[1];
tiles[0][0] = insert[2]`. -/
def set_left (g : Grid) (s : Strip) : Grid :=
  ((s.2.2, g.1.2.1, g.1.2.2), (s.2.1, g.2.1.2.1, g.2.1.2.2),
    (s.1, g.2.2.2.1, g.2.2.2.2))

/-- `Side._set_right`: `tiles[0][2] = insert[0]; tiles[1][2] = insert[1];
tiles[2][2] = insert[2]`. -/
def set_right (g : Grid) (s : Strip) : Grid :=
  ((g.1.1, g.1.2.1, s.1), (g.2.1.1, g.2.1.2.1, s.2.1),
    (g.2.2.1, g.2.2.2.1, s.2.2))

/-- The own-grid half of `Side.r_right`, performing the same reads and
writes in the same order (only `left` is captured before the writes; the
later getters read the part-way updated grid, as in the source). -/
def r_right_own (g : Grid) : Grid :=
  let left := get_left g
  let g1 := set_left g (get_bottom g)
  let g2 := set_bottom g1 (get_right g1)
  let g3 := set_right g2 (get_top g2)
  set_top g3 left

/-- The own-grid half of `Side.r_left`: `right`, `top` and `bottom` are
captured first, then the four writes run in source order. -/
def r_left_own (g : Grid) : Grid :=
  let right := get_right g
  let top := get_top g
  let bottom := get_bottom g
  let g1 := set_bottom g (get_left g)
  let g2 := set_top g1 right
  let g3 := set_right g2 bottom
  set_left g3 top

/-- An edge direction of a side: the argument of `Side.get_gs` restricted
to its four valid values. -/
inductive Dir where
  | top
  | bottom
  | left
  | right
deriving DecidableEq, Repr

/-- Dispatch of the four edge getters, as returned by `Side.get_gs`. -/
def getEdge (g : Grid) : Dir → Strip
  | .top => get_top g
  | .bottom => get_bottom g
  | .left => get_left g
  | .right => get_right g

/-- Dispatch of the four edge setters, as returned by `Side.get_gs`. -/
def setEdge (g : Grid) : Dir → Strip → Grid
  | .top => set_top g
  | .bottom => set_bottom g
  | .left => set_left g
  | .right => set_right g

/-- Identity of one of the six `Side` objects held in `Cube.sides`
(indices 0–5 of the list built in `Cube.__init__`). -/
inductive FaceIx where
  | i0
  | i1
  | i2
  | i3
  | i4
  | i5
deriving DecidableEq, Repr

/-- The grids of the six sides: the mutable `tiles` state of the six `Side`
objects owned by one `Cube`. -/
structure Sides where
  s0 : Grid
  s1 : Grid
  s2 : Grid
  s3 : Grid
  s4 : Grid
  s5 : Grid
deriving DecidableEq, Repr

/-- Read the grid of side `i`. -/
def getSide (c : Sides) : FaceIx → Grid
  | .i0 => c.s0
  | .i1 => c.s1
  | .i2 => c.s2
  | .i3 => c.s3
  | .i4 => c.s4
  | .i5 => c.s5

/-- Replace the grid of side `i`. -/
def setSide (c : Sides) (i : FaceIx) (g : Grid) : Sides :=
  match i with
  | .i0 => { c with s0 := g }
  | .i1 => { c with s1 := g }
  | .i2 => { c with s2 := g }
  | .i3 => { c with s3 := g }
  | .i4 => { c with s4 := g }
  | .i5 => { c with s5 := g }

/-- The neighbour wiring installed by `Cube.__init__` via the 24
`set_*_n(*sides[j].get_gs(d))` calls: for side `i` and direction `d`, the
bound getter/setter pair reads and writes edge `(neighbor i d).2` of side
`(neighbor i d).1`. -/
def neighbor : FaceIx → Dir → FaceIx × Dir
  | .i0, .top => (.i2, .left)
  | .i0, .left => (.i4, .left)
  | .i0, .bottom => (.i3, .left)
  | .i0, .right => (.i5, .left)
  | .i5, .top => (.i2, .bottom)
  | .i5, .left => (.i0, .right)
  | .i5, .bottom => (.i3, .top)
  | .i5, .right => (.i1, .left)
  | .i1, .top => (.i2, .right)
  | .i1, .left => (.i5, .right)
  | .i1, .bottom => (.i3, .right)
  | .i1, .right => (.i4, .right)
  | .i2, .top => (.i4, .bottom)
  | .i2, .left => (.i0, .top)
  | .i2, .bottom => (.i5, .top)
  | .i2, .right => (.i1, .top)
  | .i3, .top => (.i5, .bottom)
  | .i3, .left => (.i0, .bottom)
  | .i3, .bottom => (.i4, .top)
  | .i3, .right => (.i1, .bottom)
  | .i4, .top => (.i3, .bottom)
  | .i4, .left => (.i0, .left)
  | .i4, .bottom => (.i2, .top)
  | .i4, .right => (.i1, .right)

/-- Invoke the bound neighbour getter of side `i` in direction `d`
(`self.top_g()` and friends). -/
def nbrRead (c : Sides) (i : FaceIx) (d : Dir) : Strip :=
  getEdge (getSide c (neighbor i d).1) (neighbor i d).2

/-- Invoke the bound neighbour setter of side `i` in direction `d`
(`self.top_s(...)` and friends). -/
def nbrWrite (c : Sides) (i : FaceIx) (d : Dir) (s : Strip) : Sides :=
  setSide c (neighbor i d).1 (setEdge (getSide c (neighbor i d).1) (neighbor i d).2 s)

/-- `Side.r_right` of the side at index `i`: first the own-grid writes,
then the neighbour-strip exchange, each in source order. -/
def r_right (c : Sides) (i : FaceIx) : Sides :=
  let c1 := setSide c i (r_right_own (getSide c i))
  let left := nbrRead c1 i .left
  let c2 := nbrWrite c1 i .left (nbrRead c1 i .bottom)
  let c3 := nbrWrite c2 i .bottom (nbrRead c2 i .right)
  let c4 := nbrWrite c3 i .right (nbrRead c3 i .top)
  nbrWrite c4 i .top left

/-- `Side.r_left` of the side at index `i`: own-grid writes, then the
neighbour-strip exchange, each in source order. -/
def r_left (c : Sides) (i : FaceIx) : Sides :=
  let c1 := setSide c i (r_left_own (getSide c i))
  let left := nbrRead c1 i .left
  let c2 := nbrWrite c1 i .left (nbrRead c1 i .top)
  let c3 := nbrWrite c2 i .top (nbrRead c2 i .right)
  let c4 := nbrWrite c3 i .right (nbrRead c3 i .bottom)
  nbrWrite c4 i .bottom left

/-- `Cube.layout`: which side currently plays each of the six roles. -/
structure Layout where
  left : FaceIx
  right : FaceIx
  back : FaceIx
  front : FaceIx
  down : FaceIx
  up : FaceIx
deriving DecidableEq, Repr

/-- The full mutable state of a `Cube`: the six grids and the layout. -/
structure Cube where
  sides : Sides
  layout : Layout
deriving DecidableEq, Repr

/-- A grid whose nine cells all hold `t` (`[[tile] * 3] * 3`). -/
def uniform (t : Tile) : Grid := ((t, t, t), (t, t, t), (t, t, t))

/-- The six grids right after `Cube.__init__`: side 0 orange, 1 red,
2 green, 3 blue, 4 white, 5 yellow. -/
def initSides : Sides :=
  ⟨uniform .ORANGE, uniform .RED, uniform .GREEN, uniform .BLUE,
    uniform .WHITE, uniform .YELLOW⟩

/-- The layout set by `Cube.__init__`: left = side 0, right = side 1,
back = side 2, front = side 3, down = side 4, up = side 5. -/
def initLayout : Layout := ⟨.i0, .i1, .i2, .i3, .i4, .i5⟩

/-- A freshly constructed, solved `Cube()`. -/
def initCube : Cube := ⟨initSides, initLayout⟩

/-- `Cube.U`: `self.layout["up"].r_right()`. -/
def U (c : Cube) : Cube := { c with sides := r_right c.sides c.layout.up }

/-- `Cube.U_`: `self.layout["up"].r_left()`. -/
def U_ (c : Cube) : Cube := { c with sides := r_left c.sides c.layout.up }

/-- `Cube.D`: `self.layout["down"].r_right()`. -/
def D (c : Cube) : Cube := { c with sides := r_right c.sides c.layout.down }

/-- `Cube.D_`: `self.layout["down"].r_left()`. -/
def D_ (c : Cube) : Cube := { c with sides := r_left c.sides c.layout.down }

/-- `Cube.L`: `self.layout["left"].r_right()`. -/
def L (c : Cube) : Cube := { c with sides := r_right c.sides c.layout.left }

/-- `Cube.L_`: `self.layout["left"].r_left()`. -/
def L_ (c : Cube) : Cube := { c with sides := r_left c.sides c.layout.left }

/-- `Cube.R`: `self.layout["right"].r_right()`. -/
def R (c : Cube) : Cube := { c with sides := r_right c.sides c.layout.right }

/-- `Cube.R_`: `self.layout["right"].r_left()`. -/
def R_ (c : Cube) : Cube := { c with sides := r_left c.sides c.layout.right }

/-- `Cube.F`: `self.layout["front"].r_right()`. -/
def F (c : Cube) : Cube := { c with sides := r_right c.sides c.layout.front }

/-- `Cube.F_`: `self.layout["front"].r_left()`. -/
def F_ (c : Cube) : Cube := { c with sides := r_left c.sides c.layout.front }

/-- `Cube.B`: `self.layout["back"].r_right()`. -/
def B (c : Cube) : Cube := { c with sides := r_right c.sides c.layout.back }

/-- `Cube.B_`: `self.layout["back"].r_left()`. -/
def B_ (c : Cube) : Cube := { c with sides := r_left c.sides c.layout.back }

/-- `Cube.rLeft`: the 4-cycle of layout roles
left ← back ← right ← front ← old left. -/
def rLeft (c : Cube) : Cube :=
  { c with
    layout :=
      { c.layout with
        left := c.layout.back
        back := c.layout.right
        right := c.layout.front
        front := c.layout.left } }

/-- `Cube.rRight`: the 4-cycle of layout roles
right ← back ← left ← front ← old right. -/
def rRight (c : Cube) : Cube :=
  { c with
    layout :=
      { c.layout with
        right := c.layout.back
        back := c.layout.left
        left := c.layout.front
        front := c.layout.right } }

/-- One public operation of the cube: a quarter-turn move or a whole-cube
reorientation. -/
inductive Op where
  | U
  | U_
  | D
  | D_
  | L
  | L_
  | R
  | R_
  | F
  | F_
  | B
  | B_
  | rLeft
  | rRight
deriving DecidableEq, Repr

/-- Apply one public operation. -/
def applyOp (c : Cube) : Op → Cube
  | .U => U c
  | .U_ => U_ c
  | .D => D c
  | .D_ => D_ c
  | .L => L c
  | .L_ => L_ c
  | .R => R c
  | .R_ => R_ c
  | .F => F c
  | .F_ => F_ c
  | .B => B c
  | .B_ => B_ c
  | .rLeft => rLeft c
  | .rRight => rRight c

/-- Apply a sequence of public operations, left to right. -/
def run (c : Cube) : List Op → Cube
  | [] => c
  | o :: os => run (applyOp c o) os

/-- Indicator of one cell holding colour `t`. -/
def cnt (t x : Tile) : Nat := if x = t then 1 else 0

/-- Number of cells of colour `t` in one 3-element row. -/
def cntStrip (t : Tile) (s : Strip) : Nat := cnt t s.1 + cnt t s.2.1 + cnt t s.2.2

/-- Number of cells of colour `t` in one 3×3 grid. -/
def cntGrid (t : Tile) (g : Grid) : Nat := cntStrip t g.1 + cntStrip t g.2.1 + cntStrip t g.2.2

/-- Number of cells of colour `t` across all 54 cells of the six grids. -/
def countColor (c : Sides) (t : Tile) : Nat :=
  cntGrid t c.s0 + cntGrid t c.s1 + cntGrid t c.s2 + cntGrid t c.s3 +
    cntGrid t c.s4 + cntGrid t c.s5

/-- The centre cell `tiles[1][1]` of side `i`. -/
def center (c : Sides) (i : FaceIx) : Tile := cellAt (getSide c i) 1 1

/-- The `tile` argument each `Side` was constructed with in `Cube.__init__`
(its `base` colour, which also fills its whole grid initially). -/
def baseColor : FaceIx → Tile
  | .i0 => .ORANGE
  | .i1 => .RED
  | .i2 => .GREEN
  | .i3 => .BLUE
  | .i4 => .WHITE
  | .i5 => .YELLOW

/-- The 90°-clockwise rotation of a 3×3 grid as the spec words it (§4.1
step 3: every row/column shifts one quarter turn, cell `(r, c)` of the
result holding cell `(2 - c, r)` of the argument).  Stated from the spec
for comparison with the grid update performed by `r_right_own`. -/
def rotateCW_spec (g : Grid) : Grid :=
  ((g.2.2.1, g.2.1.1, g.1.1),
    (g.2.2.2.1, g.2.1.2.1, g.1.2.1),
    (g.2.2.2.2, g.2.1.2.2, g.1.2.2))

/-- A grid cell of the whole cube: which side, then row and column. -/
abbrev Cell : Type := FaceIx × Fin 3 × Fin 3

/-- The colour currently held at a cell. -/
def cellVal (c : Sides) (x : Cell) : Tile := cellAt (getSide c x.1) x.2.1 x.2.2

/-- The three cells of edge `d` of side `j`. -/
def edgeCells (j : FaceIx) : Dir → List Cell
  | .top => [(j, 0, 0), (j, 0, 1), (j, 0, 2)]
  | .bottom => [(j, 2, 0), (j, 2, 1), (j, 2, 2)]
  | .left => [(j, 0, 0), (j, 1, 0), (j, 2, 0)]
  | .right => [(j, 0, 2), (j, 1, 2), (j, 2, 2)]

/-- The nine cells of side `i` itself. -/
def ownCells (i : FaceIx) : List Cell :=
  [(i, 0, 0), (i, 0, 1), (i, 0, 2), (i, 1, 0), (i, 1, 1), (i, 1, 2),
    (i, 2, 0), (i, 2, 1), (i, 2, 2)]

/-- Every cell a rotation of side `i` may write: the nine own cells of side `i`
and the four bound neighbour strips. -/
def writtenCells (i : FaceIx) : List Cell :=
  ownCells i ++ edgeCells (neighbor i .top).1 (neighbor i .top).2 ++
    edgeCells (neighbor i .left).1 (neighbor i .left).2 ++
    edgeCells (neighbor i .bottom).1 (neighbor i .bottom).2 ++
    edgeCells (neighbor i .right).1 (neighbor i .right).2

/-- Reference own-grid clockwise rotation: snapshot all four edges first,
then perform the four writes of `r_right` from the snapshots. -/
def r_right_own_ref (g : Grid) : Grid :=
  let top := get_top g
  let left := get_left g
  let bottom := get_bottom g
  let right := get_right g
  set_top (set_right (set_bottom (set_left g bottom) right) top) left

/-- Reference own-grid counter-clockwise rotation: snapshot all four edges
first, then perform the four writes of `r_left` from the snapshots. -/
def r_left_own_ref (g : Grid) : Grid :=
  let top := get_top g
  let left := get_left g
  let bottom := get_bottom g
  let right := get_right g
  set_left (set_right (set_top (set_bottom g left) right) bottom) top

/-- Reference clockwise rotation of side `i`: snapshot the four neighbour
strips (and the own edges, inside `r_right_own_ref`) before any write, then
write everything to its rotated position. -/
def r_right_ref (c : Sides) (i : FaceIx) : Sides :=
  let top := nbrRead c i .top
  let left := nbrRead c i .left
  let bottom := nbrRead c i .bottom
  let right := nbrRead c i .right
  let c1 := setSide c i (r_right_own_ref (getSide c i))
  let c2 := nbrWrite c1 i .left bottom
  let c3 := nbrWrite c2 i .bottom right
  let c4 := nbrWrite c3 i .right top
  nbrWrite c4 i .top left

/-- Reference counter-clockwise rotation of side `i`: snapshot everything
before any write, then write to the rotated positions of `r_left`. -/
def r_left_ref (c : Sides) (i : FaceIx) : Sides :=
  let top := nbrRead c i .top
  let left := nbrRead c i .left
  let bottom := nbrRead c i .bottom
  let right := nbrRead c i .right
  let c1 := setSide c i (r_left_own_ref (getSide c i))
  let c2 := nbrWrite c1 i .left top
  let c3 := nbrWrite c2 i .top right
  let c4 := nbrWrite c3 i .right bottom
  nbrWrite c4 i .bottom left

/-- The four direction tokens `Side.get_gs` accepts. -/
def validDirTokens : List String := ["top", "left", "bottom", "right"]

/-- What a call to `Side.get_gs` does: either return the getter/setter pair
for one of the four edges (`accessors d` stands for the bound pair
`(getEdge · d, setEdge · d)`), or reach the `case _: exit(1)` arm, which
terminates the interpreter with the given status. -/
inductive GsOutcome where
  | accessors (d : Dir)
  | exits (status : Nat)
deriving DecidableEq, Repr

/-- `Side.get_gs`: the `match side:` dispatch of the source, with the
wildcard arm `exit(1)`. -/
def get_gs (side : String) : GsOutcome :=
  if side = "top" then .accessors .top
  else if side = "left" then .accessors .left
  else if side = "bottom" then .accessors .bottom
  else if side = "right" then .accessors .right
  else .exits 1

/-- The `moves` list built inside `Cube.mix`, in source order. -/
def mixMoves : List (Cube → Cube) := [U, U_, D, D_, F, F_, B, B_, L, L_, R, R_]

/-- The default of the `n_moves` parameter of `Cube.mix`. -/
def n_moves_default : Nat := 12

/-- `Cube.mix`: `n_moves` iterations, each applying `choice(moves)`.  The
successive results of the global `random.choice` calls are threaded in as
`pick`: iteration `k` applies `moves[pick k]`. -/
def mix (pick : Nat → Fin 12) (n_moves : Nat) (c : Cube) : Cube :=
  (List.range n_moves).foldl (fun x k => (mixMoves.get (Fin.cast (by rfl) (pick k))) x) c

/-- The twelve quarter-turn operations, as `Op` labels, in the order of the
`moves` list of `Cube.mix`. -/
def quarterTurnOps : List Op := [.U, .U_, .D, .D_, .F, .F_, .B, .B_, .L, .L_, .R, .R_]

/-- The `Op` label of entry `p` of the `moves` list of `Cube.mix`. -/
def pickOp (p : Fin 12) : Op := quarterTurnOps.get (Fin.cast (by rfl) p)

/-- Turning a side counter-clockwise undoes turning it clockwise. -/
theorem aux_rot_rl (i : FaceIx) (c : Sides) : r_left (r_right c i) i = c := by
  obtain ⟨⟨⟨a00,a01,a02⟩,⟨a10,a11,a12⟩,⟨a20,a21,a22⟩⟩, ⟨⟨b00,b01,b02⟩,⟨b10,b11,b12⟩,⟨b20,b21,b22⟩⟩, ⟨⟨c00,c01,c02⟩,⟨c10,c11,c12⟩,⟨c20,c21,c22⟩⟩, ⟨⟨d00,d01,d02⟩,⟨d10,d11,d12⟩,⟨d20,d21,d22⟩⟩, ⟨⟨e00,e01,e02⟩,⟨e10,e11,e12⟩,⟨e20,e21,e22⟩⟩, ⟨⟨f00,f01,f02⟩,⟨f10,f11,f12⟩,⟨f20,f21,f22⟩⟩⟩ := c
  cases i <;> rfl

/-- Turning a side clockwise undoes turning it counter-clockwise. -/
theorem aux_rot_lr (i : FaceIx) (c : Sides) : r_right (r_left c i) i = c := by
  obtain ⟨⟨⟨a00,a01,a02⟩,⟨a10,a11,a12⟩,⟨a20,a21,a22⟩⟩, ⟨⟨b00,b01,b02⟩,⟨b10,b11,b12⟩,⟨b20,b21,b22⟩⟩, ⟨⟨c00,c01,c02⟩,⟨c10,c11,c12⟩,⟨c20,c21,c22⟩⟩, ⟨⟨d00,d01,d02⟩,⟨d10,d11,d12⟩,⟨d20,d21,d22⟩⟩, ⟨⟨e00,e01,e02⟩,⟨e10,e11,e12⟩,⟨e20,e21,e22⟩⟩, ⟨⟨f00,f01,f02⟩,⟨f10,f11,f12⟩,⟨f20,f21,f22⟩⟩⟩ := c
  cases i <;> rfl

/-- Four clockwise quarter turns of one side restore the whole state. -/
theorem aux_rot_r4 (i : FaceIx) (c : Sides) :
    r_right (r_right (r_right (r_right c i) i) i) i = c := by
  obtain ⟨⟨⟨a00,a01,a02⟩,⟨a10,a11,a12⟩,⟨a20,a21,a22⟩⟩, ⟨⟨b00,b01,b02⟩,⟨b10,b11,b12⟩,⟨b20,b21,b22⟩⟩, ⟨⟨c00,c01,c02⟩,⟨c10,c11,c12⟩,⟨c20,c21,c22⟩⟩, ⟨⟨d00,d01,d02⟩,⟨d10,d11,d12⟩,⟨d20,d21,d22⟩⟩, ⟨⟨e00,e01,e02⟩,⟨e10,e11,e12⟩,⟨e20,e21,e22⟩⟩, ⟨⟨f00,f01,f02⟩,⟨f10,f11,f12⟩,⟨f20,f21,f22⟩⟩⟩ := c
  cases i <;> rfl

/-- Four counter-clockwise quarter turns of one side restore the state. -/
theorem aux_rot_l4 (i : FaceIx) (c : Sides) :
    r_left (r_left (r_left (r_left c i) i) i) i = c := by
  obtain ⟨⟨⟨a00,a01,a02⟩,⟨a10,a11,a12⟩,⟨a20,a21,a22⟩⟩, ⟨⟨b00,b01,b02⟩,⟨b10,b11,b12⟩,⟨b20,b21,b22⟩⟩, ⟨⟨c00,c01,c02⟩,⟨c10,c11,c12⟩,⟨c20,c21,c22⟩⟩, ⟨⟨d00,d01,d02⟩,⟨d10,d11,d12⟩,⟨d20,d21,d22⟩⟩, ⟨⟨e00,e01,e02⟩,⟨e10,e11,e12⟩,⟨e20,e21,e22⟩⟩, ⟨⟨f00,f01,f02⟩,⟨f10,f11,f12⟩,⟨f20,f21,f22⟩⟩⟩ := c
  cases i <;> rfl

/-- A clockwise turn of any side preserves every colour count. -/
theorem aux_count_r_right (i : FaceIx) (t : Tile) (c : Sides) :
    countColor (r_right c i) t = countColor c t := by
  obtain ⟨⟨⟨a00,a01,a02⟩,⟨a10,a11,a12⟩,⟨a20,a21,a22⟩⟩, ⟨⟨b00,b01,b02⟩,⟨b10,b11,b12⟩,⟨b20,b21,b22⟩⟩, ⟨⟨c00,c01,c02⟩,⟨c10,c11,c12⟩,⟨c20,c21,c22⟩⟩, ⟨⟨d00,d01,d02⟩,⟨d10,d11,d12⟩,⟨d20,d21,d22⟩⟩, ⟨⟨e00,e01,e02⟩,⟨e10,e11,e12⟩,⟨e20,e21,e22⟩⟩, ⟨⟨f00,f01,f02⟩,⟨f10,f11,f12⟩,⟨f20,f21,f22⟩⟩⟩ := c
  cases i <;>
    simp only [r_right, r_right_own, nbrRead, nbrWrite, getSide, setSide, getEdge, setEdge,
      get_top, get_bottom, get_left, get_right, set_top, set_bottom, set_left, set_right,
      rev3, neighbor, countColor, cntGrid, cntStrip] <;>
    omega

/-- A counter-clockwise turn of any side preserves every colour count. -/
theorem aux_count_r_left (i : FaceIx) (t : Tile) (c : Sides) :
    countColor (r_left c i) t = countColor c t := by
  obtain ⟨⟨⟨a00,a01,a02⟩,⟨a10,a11,a12⟩,⟨a20,a21,a22⟩⟩, ⟨⟨b00,b01,b02⟩,⟨b10,b11,b12⟩,⟨b20,b21,b22⟩⟩, ⟨⟨c00,c01,c02⟩,⟨c10,c11,c12⟩,⟨c20,c21,c22⟩⟩, ⟨⟨d00,d01,d02⟩,⟨d10,d11,d12⟩,⟨d20,d21,d22⟩⟩, ⟨⟨e00,e01,e02⟩,⟨e10,e11,e12⟩,⟨e20,e21,e22⟩⟩, ⟨⟨f00,f01,f02⟩,⟨f10,f11,f12⟩,⟨f20,f21,f22⟩⟩⟩ := c
  cases i <;>
    simp only [r_left, r_left_own, nbrRead, nbrWrite, getSide, setSide, getEdge, setEdge,
      get_top, get_bottom, get_left, get_right, set_top, set_bottom, set_left, set_right,
      rev3, neighbor, countColor, cntGrid, cntStrip] <;>
    omega

/-- A clockwise turn of any side leaves every centre cell unchanged. -/
theorem aux_center_r_right (j i : FaceIx) (c : Sides) :
    center (r_right c j) i = center c i := by
  obtain ⟨⟨⟨a00,a01,a02⟩,⟨a10,a11,a12⟩,⟨a20,a21,a22⟩⟩, ⟨⟨b00,b01,b02⟩,⟨b10,b11,b12⟩,⟨b20,b21,b22⟩⟩, ⟨⟨c00,c01,c02⟩,⟨c10,c11,c12⟩,⟨c20,c21,c22⟩⟩, ⟨⟨d00,d01,d02⟩,⟨d10,d11,d12⟩,⟨d20,d21,d22⟩⟩, ⟨⟨e00,e01,e02⟩,⟨e10,e11,e12⟩,⟨e20,e21,e22⟩⟩, ⟨⟨f00,f01,f02⟩,⟨f10,f11,f12⟩,⟨f20,f21,f22⟩⟩⟩ := c
  cases j <;> cases i <;> rfl

/-- A counter-clockwise turn of any side leaves every centre unchanged. -/
theorem aux_center_r_left (j i : FaceIx) (c : Sides) :
    center (r_left c j) i = center c i := by
  obtain ⟨⟨⟨a00,a01,a02⟩,⟨a10,a11,a12⟩,⟨a20,a21,a22⟩⟩, ⟨⟨b00,b01,b02⟩,⟨b10,b11,b12⟩,⟨b20,b21,b22⟩⟩, ⟨⟨c00,c01,c02⟩,⟨c10,c11,c12⟩,⟨c20,c21,c22⟩⟩, ⟨⟨d00,d01,d02⟩,⟨d10,d11,d12⟩,⟨d20,d21,d22⟩⟩, ⟨⟨e00,e01,e02⟩,⟨e10,e11,e12⟩,⟨e20,e21,e22⟩⟩, ⟨⟨f00,f01,f02⟩,⟨f10,f11,f12⟩,⟨f20,f21,f22⟩⟩⟩ := c
  cases j <;> cases i <;> rfl

/-- Every public operation preserves every colour count. -/
theorem aux_count_applyOp (o : Op) (c : Cube) (t : Tile) :
    countColor (applyOp c o).sides t = countColor c.sides t := by
  cases o
  case U => exact aux_count_r_right c.layout.up t c.sides
  case U_ => exact aux_count_r_left c.layout.up t c.sides
  case D => exact aux_count_r_right c.layout.down t c.sides
  case D_ => exact aux_count_r_left c.layout.down t c.sides
  case L => exact aux_count_r_right c.layout.left t c.sides
  case L_ => exact aux_count_r_left c.layout.left t c.sides
  case R => exact aux_count_r_right c.layout.right t c.sides
  case R_ => exact aux_count_r_left c.layout.right t c.sides
  case F => exact aux_count_r_right c.layout.front t c.sides
  case F_ => exact aux_count_r_left c.layout.front t c.sides
  case B => exact aux_count_r_right c.layout.back t c.sides
  case B_ => exact aux_count_r_left c.layout.back t c.sides
  case rLeft => rfl
  case rRight => rfl

/-- Any operation sequence preserves every colour count. -/
theorem aux_count_run (ops : List Op) (c : Cube) (t : Tile) :
    countColor (run c ops).sides t = countColor c.sides t := by
  induction ops generalizing c with
  | nil => rfl
  | cons o os ih => rw [run, ih, aux_count_applyOp]

/-- Every public operation leaves every centre cell unchanged. -/
theorem aux_center_applyOp (o : Op) (c : Cube) (i : FaceIx) :
    center (applyOp c o).sides i = center c.sides i := by
  cases o
  case U => exact aux_center_r_right c.layout.up i c.sides
  case U_ => exact aux_center_r_left c.layout.up i c.sides
  case D => exact aux_center_r_right c.layout.down i c.sides
  case D_ => exact aux_center_r_left c.layout.down i c.sides
  case L => exact aux_center_r_right c.layout.left i c.sides
  case L_ => exact aux_center_r_left c.layout.left i c.sides
  case R => exact aux_center_r_right c.layout.right i c.sides
  case R_ => exact aux_center_r_left c.layout.right i c.sides
  case F => exact aux_center_r_right c.layout.front i c.sides
  case F_ => exact aux_center_r_left c.layout.front i c.sides
  case B => exact aux_center_r_right c.layout.back i c.sides
  case B_ => exact aux_center_r_left c.layout.back i c.sides
  case rLeft => rfl
  case rRight => rfl

/-- Any operation sequence leaves every centre cell unchanged. -/
theorem aux_center_run (ops : List Op) (c : Cube) (i : FaceIx) :
    center (run c ops).sides i = center c.sides i := by
  induction ops generalizing c with
  | nil => rfl
  | cons o os ih => rw [run, ih, aux_center_applyOp]

/-- Running a concatenation runs the two halves in turn. -/
theorem aux_run_append (l1 l2 : List Op) (c : Cube) :
    run c (l1 ++ l2) = run (run c l1) l2 := by
  induction l1 generalizing c with
  | nil => rfl
  | cons o os ih => rw [List.cons_append, run, run, ih]

/-- Entry `p` of the `moves` list of `Cube.mix` acts like the
quarter-turn operation labelled `pickOp p`. -/
theorem aux_pick_apply (p : Fin 12) (c : Cube) :
    (mixMoves.get (Fin.cast (by rfl) p)) c = applyOp c (pickOp p) := by
  fin_cases p <;> rfl

/-- `mix` is the same as running the picked quarter-turn labels. -/
theorem aux_mix_run (pick : Nat → Fin 12) (n : Nat) (c : Cube) :
    mix pick n c = run c ((List.range n).map fun k => pickOp (pick k)) := by
  induction n generalizing c with
  | zero => rfl
  | succ n ih =>
    have h1 : mix pick (n + 1) c = (mixMoves.get (Fin.cast (by rfl) (pick n))) (mix pick n c) := by
      simp [mix, List.range_succ]
    rw [h1, aux_pick_apply, ih, List.range_succ, List.map_append, aux_run_append]
    rfl

/-- C1: colour conservation — after any sequence of the 12 quarter-turn
moves and the 2 whole-cube reorientations starting from the constructed
cube, the 54 grid cells hold exactly nine cells of each of the six physical
colours and no `UNSET` cell. -/
theorem C1_color_conservation (ops : List Op) :
    countColor (run initCube ops).sides .RED = 9 ∧
    countColor (run initCube ops).sides .GREEN = 9 ∧
    countColor (run initCube ops).sides .BLUE = 9 ∧
    countColor (run initCube ops).sides .YELLOW = 9 ∧
    countColor (run initCube ops).sides .WHITE = 9 ∧
    countColor (run initCube ops).sides .ORANGE = 9 ∧
    countColor (run initCube ops).sides .UNSET = 0 := by
  refine ⟨?_, ?_, ?_, ?_, ?_, ?_, ?_⟩ <;> rw [aux_count_run] <;> rfl

/-- C2: move inverse law — for every cube state, each quarter-turn move
applied four times is the identity, each move followed by its named
inverse (and the named inverse followed by the move) restores the exact
prior state, and from the solved cube a clockwise turn followed by the
matching counter-clockwise turn reproduces the solved state. -/
theorem C2_move_inverse_law (c : Cube) :
    (U (U (U (U c))) = c) ∧
    (U_ (U_ (U_ (U_ c))) = c) ∧
    (U_ (U c) = c) ∧
    (U (U_ c) = c) ∧
    (D (D (D (D c))) = c) ∧
    (D_ (D_ (D_ (D_ c))) = c) ∧
    (D_ (D c) = c) ∧
    (D (D_ c) = c) ∧
    (L (L (L (L c))) = c) ∧
    (L_ (L_ (L_ (L_ c))) = c) ∧
    (L_ (L c) = c) ∧
    (L (L_ c) = c) ∧
    (R (R (R (R c))) = c) ∧
    (R_ (R_ (R_ (R_ c))) = c) ∧
    (R_ (R c) = c) ∧
    (R (R_ c) = c) ∧
    (F (F (F (F c))) = c) ∧
    (F_ (F_ (F_ (F_ c))) = c) ∧
    (F_ (F c) = c) ∧
    (F (F_ c) = c) ∧
    (B (B (B (B c))) = c) ∧
    (B_ (B_ (B_ (B_ c))) = c) ∧
    (B_ (B c) = c) ∧
    (B (B_ c) = c) ∧
    (U_ (U initCube) = initCube) ∧
    (D_ (D initCube) = initCube) ∧
    (L_ (L initCube) = initCube) ∧
    (R_ (R initCube) = initCube) ∧
    (F_ (F initCube) = initCube) ∧
    (B_ (B initCube) = initCube) := by
  refine ⟨?_, ?_, ?_, ?_, ?_, ?_, ?_, ?_, ?_, ?_, ?_, ?_, ?_, ?_, ?_, ?_, ?_, ?_, ?_, ?_, ?_, ?_, ?_, ?_, ?_, ?_, ?_, ?_, ?_, ?_⟩
  · dsimp only [U]; rw [aux_rot_r4]
  · dsimp only [U_]; rw [aux_rot_l4]
  · dsimp only [U, U_]; rw [aux_rot_rl]
  · dsimp only [U, U_]; rw [aux_rot_lr]
  · dsimp only [D]; rw [aux_rot_r4]
  · dsimp only [D_]; rw [aux_rot_l4]
  · dsimp only [D, D_]; rw [aux_rot_rl]
  · dsimp only [D, D_]; rw [aux_rot_lr]
  · dsimp only [L]; rw [aux_rot_r4]
  · dsimp only [L_]; rw [aux_rot_l4]
  · dsimp only [L, L_]; rw [aux_rot_rl]
  · dsimp only [L, L_]; rw [aux_rot_lr]
  · dsimp only [R]; rw [aux_rot_r4]
  · dsimp only [R_]; rw [aux_rot_l4]
  · dsimp only [R, R_]; rw [aux_rot_rl]
  · dsimp only [R, R_]; rw [aux_rot_lr]
  · dsimp only [F]; rw [aux_rot_r4]
  · dsimp only [F_]; rw [aux_rot_l4]
  · dsimp only [F, F_]; rw [aux_rot_rl]
  · dsimp only [F, F_]; rw [aux_rot_lr]
  · dsimp only [B]; rw [aux_rot_r4]
  · dsimp only [B_]; rw [aux_rot_l4]
  · dsimp only [B, B_]; rw [aux_rot_rl]
  · dsimp only [B, B_]; rw [aux_rot_lr]
  · decide
  · decide
  · decide
  · decide
  · decide
  · decide

/-- C3 counterexample: at the invalid token "front" (outside the fixed set
of direction tokens), `Side.get_gs` does not produce any getter/setter
pair — it reaches `exit(1)`, terminating the process with status 1, so
the lookup neither raises a catchable typed invalid-argument error nor
returns accessors. -/
theorem C3_counterexample_exit_on_front :
    "front" ∉ validDirTokens ∧ get_gs "front" = GsOutcome.exits 1 ∧
      ∀ d : Dir, get_gs "front" ≠ GsOutcome.accessors d := by
  refine ⟨by decide, rfl, fun d => ?_⟩
  cases d <;> decide

/-- C3 amended: for every input string outside the fixed set
{"top", "left", "bottom", "right"}, `Side.get_gs` terminates the process
via `exit(1)` (status 1) instead of raising a typed error. -/
theorem C3_amended_invalid_token_exits (s : String) (h : s ∉ validDirTokens) :
    get_gs s = GsOutcome.exits 1 := by
  simp only [validDirTokens, List.mem_cons, List.not_mem_nil, or_false, not_or] at h
  obtain ⟨h1, h2, h3, h4⟩ := h
  simp [get_gs, h1, h2, h3, h4]

/-- C3 witness: the amended statement at the concrete token "center". -/
theorem C3_witness_center_token :
    "center" ∉ validDirTokens ∧ get_gs "center" = GsOutcome.exits 1 :=
  ⟨by decide, C3_amended_invalid_token_exits "center" (by decide)⟩

/-- C4: one clockwise rotation of any side cycles the four bound neighbour
strips clockwise (old left strip ends at the top neighbour, old top at
right, old right at bottom, old bottom at left), replaces the own
grid by its 90°-clockwise rotation, and changes no cell outside the side
itself and its four bound neighbour strips. -/
theorem C4_r_right_clockwise_cycle (c : Sides) (i : FaceIx) :
    nbrRead (r_right c i) i .top = nbrRead c i .left ∧
    nbrRead (r_right c i) i .right = nbrRead c i .top ∧
    nbrRead (r_right c i) i .bottom = nbrRead c i .right ∧
    nbrRead (r_right c i) i .left = nbrRead c i .bottom ∧
    getSide (r_right c i) i = rotateCW_spec (getSide c i) ∧
    ∀ x : Cell, x ∉ writtenCells i → cellVal (r_right c i) x = cellVal c x := by
  obtain ⟨⟨⟨a00,a01,a02⟩,⟨a10,a11,a12⟩,⟨a20,a21,a22⟩⟩, ⟨⟨b00,b01,b02⟩,⟨b10,b11,b12⟩,⟨b20,b21,b22⟩⟩, ⟨⟨c00,c01,c02⟩,⟨c10,c11,c12⟩,⟨c20,c21,c22⟩⟩, ⟨⟨d00,d01,d02⟩,⟨d10,d11,d12⟩,⟨d20,d21,d22⟩⟩, ⟨⟨e00,e01,e02⟩,⟨e10,e11,e12⟩,⟨e20,e21,e22⟩⟩, ⟨⟨f00,f01,f02⟩,⟨f10,f11,f12⟩,⟨f20,f21,f22⟩⟩⟩ := c
  cases i <;> refine ⟨rfl, rfl, rfl, rfl, rfl, fun x hx => ?_⟩ <;>
    obtain ⟨j, r, k⟩ := x <;> cases j <;> fin_cases r <;> fin_cases k <;>
    first
      | rfl
      | exact absurd (by decide) hx

/-- C4 witness: the theorem at the solved grids, side 5 (up), and the
untouched centre cell of side 1, whose exclusion from the written cells is
discharged concretely. -/
theorem C4_witness_untouched_cell :
    ((FaceIx.i1, 1, 1) : Cell) ∉ writtenCells .i5 ∧
      cellVal (r_right initSides .i5) (FaceIx.i1, 1, 1) =
        cellVal initSides (FaceIx.i1, 1, 1) :=
  ⟨by decide,
    (C4_r_right_clockwise_cycle initSides .i5).2.2.2.2.2 (FaceIx.i1, 1, 1) (by decide)⟩

/-- C5: canonical edge order — the top edge is read left to right (row 0
in index order), the right column in index order, while the bottom and
left edges are read reversed relative to the naive row/column scan; each
setter accepts the same order, so a strip read from any edge and written
to any other edge round-trips positionally. -/
theorem C5_canonical_edge_order (g g2 : Grid) (s : Strip) :
    get_top g = (cellAt g 0 0, cellAt g 0 1, cellAt g 0 2) ∧
    get_right g = (cellAt g 0 2, cellAt g 1 2, cellAt g 2 2) ∧
    get_bottom g = (cellAt g 2 2, cellAt g 2 1, cellAt g 2 0) ∧
    get_left g = (cellAt g 2 0, cellAt g 1 0, cellAt g 0 0) ∧
    (∀ d : Dir, getEdge (setEdge g d s) d = s) ∧
    (∀ d e : Dir, getEdge (setEdge g2 e (getEdge g d)) e = getEdge g d) := by
  refine ⟨rfl, rfl, rfl, rfl, fun d => ?_, fun d e => ?_⟩
  · cases d <;> rfl
  · cases d <;> cases e <;> rfl

/-- C6: each rotation is observationally a snapshot rotation — for every
state and side, `r_right` and `r_left` produce exactly the state of the
reference rotations that first read all four own edges and all four
neighbour strips and only then perform the writes. -/
theorem C6_read_before_write_equivalence (c : Sides) (i : FaceIx) :
    r_right c i = r_right_ref c i ∧ r_left c i = r_left_ref c i := by
  obtain ⟨⟨⟨a00,a01,a02⟩,⟨a10,a11,a12⟩,⟨a20,a21,a22⟩⟩, ⟨⟨b00,b01,b02⟩,⟨b10,b11,b12⟩,⟨b20,b21,b22⟩⟩, ⟨⟨c00,c01,c02⟩,⟨c10,c11,c12⟩,⟨c20,c21,c22⟩⟩, ⟨⟨d00,d01,d02⟩,⟨d10,d11,d12⟩,⟨d20,d21,d22⟩⟩, ⟨⟨e00,e01,e02⟩,⟨e10,e11,e12⟩,⟨e20,e21,e22⟩⟩, ⟨⟨f00,f01,f02⟩,⟨f10,f11,f12⟩,⟨f20,f21,f22⟩⟩⟩ := c
  cases i <;> exact ⟨rfl, rfl⟩

/-- C7: the two whole-cube reorientations are mutual inverses on the full
state, and each leaves all six grids untouched. -/
theorem C7_reorientation_inverse_law (c : Cube) :
    rRight (rLeft c) = c ∧ rLeft (rRight c) = c ∧
      (rLeft c).sides = c.sides ∧ (rRight c).sides = c.sides :=
  ⟨rfl, rfl, rfl, rfl⟩

/-- C8: no quarter-turn move changes the layout mapping. -/
theorem C8_moves_preserve_layout (c : Cube) :
    (U c).layout = c.layout ∧ (U_ c).layout = c.layout ∧
    (D c).layout = c.layout ∧ (D_ c).layout = c.layout ∧
    (L c).layout = c.layout ∧ (L_ c).layout = c.layout ∧
    (R c).layout = c.layout ∧ (R_ c).layout = c.layout ∧
    (F c).layout = c.layout ∧ (F_ c).layout = c.layout ∧
    (B c).layout = c.layout ∧ (B_ c).layout = c.layout :=
  ⟨rfl, rfl, rfl, rfl, rfl, rfl, rfl, rfl, rfl, rfl, rfl, rfl⟩

/-- C9 (behavioural part): `mix` with pick stream `pick` applies exactly
`n` operations drawn from the fixed 12-element quarter-turn table — never
a reorientation — and the `n_moves` default of the source is 12. -/
theorem C9_mix_quarter_turns_only (pick : Nat → Fin 12) (n : Nat) (c : Cube) :
    mix pick n c = run c ((List.range n).map fun k => pickOp (pick k)) ∧
    (∀ p : Fin 12, pickOp p ∈ quarterTurnOps) ∧
    (∀ p : Fin 12, pickOp p ≠ Op.rLeft ∧ pickOp p ≠ Op.rRight) ∧
    quarterTurnOps.length = 12 ∧ quarterTurnOps.Nodup ∧
    n_moves_default = 12 :=
  ⟨aux_mix_run pick n c, by decide, by decide, rfl, by decide, rfl⟩

/-- C10: centre-facelet invariant — every public operation leaves the
centre cell of every side unchanged, so in every state reachable from the
constructed cube the centre of each side equals its base colour. -/
theorem C10_center_invariant :
    (∀ (c : Cube) (o : Op) (i : FaceIx), center (applyOp c o).sides i = center c.sides i) ∧
    (∀ (ops : List Op) (i : FaceIx), center (run initCube ops).sides i = baseColor i) := by
  refine ⟨fun c o i => aux_center_applyOp o c i, fun ops i => ?_⟩
  rw [aux_center_run]
  cases i <;> rfl
